import Mathlib

set_option maxHeartbeats 1000000

/-!
Verification of the Soteria topic-authorization engine.

The development shallowly embeds the Go sources:

* `internal/topics` (the topic `Manager`, `GetTopicType`, `GetTopicTemplate`,
  `IsTopicValid`, `ValidateTopicBySender`, `getHashID`, and the issuer/audience
  helpers) is translated from `src/internal/topics/t.go`.
* The `Template` value type with its `Parse` renderer and `HasAccess`
  access decision is translated from the unnamed topics source file
  (`Topic`, `Template`, `Template.Parse`, `Template.HasAccess`, `HashType`).
* The orchestrator `AutoAuthenticator` with `ACL` and `ValidateAccessType`
  is translated from the `AutoAuthenticator` source in the authenticator
  package.

External collaborators that the sources import but whose code is not part of
the repository snapshot are modelled abstractly, each marked in its doc
comment: the `pkg/acl` access-type constants, the `pkg/user` issuer
constants, the snappids hash-id codec (an abstract fallible decoder), the
`crypto/md5` digest (an abstract function parameter `md5hex` standing for
hex-encoded md5), and the compiled `text/template` renderer and `regexp`
matcher of a pattern (abstract functions, since their inputs come from
configuration, not from the sources).

Go-specific behaviour is made explicit: a Go map lookup at an absent key
yields the value type's zero value (the empty string for a string-typed
map), and an out-of-range slice index is a panic, modelled by `Option` with
`none` for the panic.
-/

namespace Soteria

namespace acl

/-- Modelled from the spec: the `pkg/acl` package is not in the snapshot.
`AccessType` is a string-valued enumeration (the repository's tests print the
publish-subscribe wildcard as `3`: "requested access type 3 is invalid"). -/
abbrev AccessType := String

/-- Subscribe access. -/
def Sub : AccessType := "1"

/-- Publish access. -/
def Pub : AccessType := "2"

/-- Publish-subscribe wildcard access. -/
def PubSub : AccessType := "3"

/-- Client-credentials pseudo access used for token issuing. -/
def ClientCredentials : AccessType := "token"

/-- Declared "no access" constant. -/
def None : AccessType := "-1"

/-- Modelled from the spec: the Unset sentinel default of `AccessType`.
As the zero value of a string-typed Go type it is the empty string; a Go
map lookup at an absent key yields exactly this value. -/
def Unset : AccessType := ""

end acl

namespace user

/-- Modelled from the spec: the `pkg/user` package is not in the snapshot.
`Issuer` is a string enumeration; the tests show the third-party issuer
claim rendered as "100". -/
abbrev Issuer := String

/-- Driver issuer. -/
def Driver : Issuer := "0"

/-- Passenger issuer. -/
def Passenger : Issuer := "1"

/-- Third-party issuer. -/
def ThirdParty : Issuer := "100"

end user

namespace snappids

/-- Modelled from the spec: the snappids audience type (an integer
enumeration in the external library). -/
abbrev Audience := Int

/-- Driver audience constant. -/
def DriverAudience : Audience := 0

/-- Passenger audience constant. -/
def PassengerAudience : Audience := 1

/-- Modelled from the spec: the external hash-id codec. `decodeHashID`
stands for `DecodeHashID(sub, audience)`; it is deterministic,
audience-scoped and fallible, so it is an abstract function into `Option`
(`none` models the decode error). -/
structure HashIDSManager where
  decodeHashID : String → Audience → Option Int

end snappids

namespace topics

/-- HashType topic hashID type, from the topics source: `HashID` and `MD5`. -/
inductive HashType
  | HashID
  | MD5
deriving DecidableEq

/-- The `map[string]string` substitution context handed to a template,
as an association list. -/
abbrev Fields := List (String × String)

/-- One compiled topic pattern. The compiled `text/template` is modelled as
an abstract renderer `template : Fields → Option String` (`none` models an
`Execute` error) and the compiled `regexp` as an abstract matcher
`regex : String → Bool`, because both are built from configuration strings
that are not part of the sources. The remaining fields are translated from
the `Template` struct of the topics source. -/
structure Template where
  type : String
  template : Fields → Option String
  regex : String → Bool
  hashType : HashType
  accesses : List (String × acl.AccessType)

/-- Go map lookup `t.Accesses[audience]`: the stored value when the key is
present, the string zero value (the `Unset` sentinel) when it is absent. -/
def lookupAccess (accesses : List (String × acl.AccessType)) (audience : String) :
    acl.AccessType :=
  match accesses.find? (fun p => p.1 == audience) with
  | some p => p.2
  | none => acl.Unset

/-- `Template.Parse`: execute the template on the field map; an execution
error yields the empty string. -/
def Template.Parse (t : Template) (fields : Fields) : String :=
  match t.template fields with
  | none => ""
  | some s => s

/-- `Template.HasAccess`: look the audience up in the accesses map and grant
iff the stored value is the publish-subscribe wildcard or equals the
requested access type. -/
def Template.HasAccess (t : Template) (audience : String)
    (accessType : acl.AccessType) : Bool :=
  let access := lookupAccess t.accesses audience
  access == acl.PubSub || access == accessType

/-- Topic type constant from the topics source. -/
def CabEvent : String := "cab_event"

/-- Topic type constant from the topics source. -/
def DriverLocation : String := "driver_location"

/-- Topic type constant from the topics source. -/
def PassengerLocation : String := "passenger_location"

/-- Topic type constant from the topics source. -/
def SuperappEvent : String := "superapp_event"

/-- Topic type constant from the topics source. -/
def BoxEvent : String := "box_event"

/-- Topic type constant from the topics source. -/
def SharedLocation : String := "shared_location"

/-- Topic type constant from the topics source. -/
def Chat : String := "chat"

/-- Topic type constant from the topics source. -/
def GeneralCallEntry : String := "general_call_entry"

/-- Topic type constant from the topics source. -/
def NodeCallEntry : String := "node_call_entry"

/-- Topic type constant from the topics source. -/
def CallOutgoing : String := "call_outgoing"

/-- Audience string constant from the topics source. -/
def Driver : String := "driver"

/-- Audience string constant from the topics source. -/
def Passenger : String := "passenger"

/-- The default hashing pre-string for the cab topic family, value "emqch"
(named `EmqCabHashPre` here; the source constant carries the same value). -/
def EmqCabHashPre : String := "emqch"

/-- The topic `Manager`: the hash-id codec, the company string and the
ordered compiled pattern list. -/
structure Manager where
  hashIDSManager : snappids.HashIDSManager
  company : String
  topicTemplates : List Template

/-- Go `strings.TrimPrefix(s, pre)`: drop `pre` from the front of `s` when
it is a front piece of `s`, otherwise return `s` unchanged. -/
def trimPre (s pre : String) : String :=
  if pre.isPrefixOf s then s.drop pre.length else s

/-- The declaration-order scan shared by `GetTopicTemplate`: the first
template whose matcher accepts the string. -/
def findTemplate (ts : List Template) (topic : String) : Option Template :=
  ts.find? (fun each => each.regex topic)

/-- The declaration-order scan of `GetTopicType`: the first matching
template's type string, the empty string when none matches. -/
def findType (ts : List Template) (topic : String) : String :=
  match ts.find? (fun each => each.regex topic) with
  | some each => each.type
  | none => ""

/-- `Manager.GetTopicTemplate`: trim the company from the front of the
input, then return the first template whose matcher accepts it. -/
def Manager.GetTopicTemplate (t : Manager) (input : String) : Option Template :=
  findTemplate t.topicTemplates (trimPre input t.company)

/-- `Manager.GetTopicType`: trim the company from the front of the input,
then return the first matching template's type ("" when none matches). -/
def Manager.GetTopicType (t : Manager) (input : String) : String :=
  findType t.topicTemplates (trimPre input t.company)

/-- `Manager.IsTopicValid`: true when a topic type was found. -/
def Manager.IsTopicValid (t : Manager) (topic : String) : Bool :=
  (t.GetTopicType topic).length != 0

/-- `issuerToAudience`: the snappids audience for an issuer, -1 by default. -/
def issuerToAudience (issuer : user.Issuer) : snappids.Audience :=
  if issuer == user.Passenger then snappids.PassengerAudience
  else if issuer == user.Driver then snappids.DriverAudience
  else -1

/-- `issuerToAudienceStr`: the audience string for an issuer, "" by default. -/
def issuerToAudienceStr (issuer : user.Issuer) : String :=
  if issuer == user.Passenger then Passenger
  else if issuer == user.Driver then Driver
  else ""

/-- `peerOfAudience`: the complementary audience string, "" by default. -/
def peerOfAudience (audience : String) : String :=
  if audience == Driver then Passenger
  else if audience == Passenger then Driver
  else ""

/-- `Manager.getHashID`: for the cab-event topic type, decode the subject
with the codec (an error becomes a failure) and hash the fixed pre-string
joined by "-" with the decimal numeric id; for every other topic type,
return the subject unchanged. `md5hex` abstracts the hex-encoded md5 digest
of `crypto/md5`. -/
def Manager.getHashID (t : Manager) (md5hex : String → String)
    (topicType sub : String) (issuer : user.Issuer) : Option String :=
  if topicType == CabEvent then
    match t.hashIDSManager.decodeHashID sub (issuerToAudience issuer) with
    | none => none
    | some id => some (md5hex (EmqCabHashPre ++ "-" ++ toString id))
  else
    some sub

/-- Accumulator pass of `goSplitSlash`, structurally recursive over the
character list so that it reduces in the kernel. -/
def splitSlashAux : List Char → List Char → List String
  | [], acc => [String.mk acc.reverse]
  | c :: rest, acc =>
    if c = '/' then String.mk acc.reverse :: splitSlashAux rest []
    else splitSlashAux rest (c :: acc)

/-- Go `strings.Split(s, "/")`: the "/"-separated segments of `s`; the
empty string yields one empty segment, and n separators always yield n+1
segments. -/
def goSplitSlash (s : String) : List String :=
  splitSlashAux s.data []

/-- `Manager.ValidateTopicBySender`: classify the topic (no match is a
deny), build the audience/company/peer/hashId field set, for the
node-call-entry type additionally take element 4 of the "/"-split of the
raw topic — an out-of-range index is a Go panic, modelled as `none` — and
compare the rendered string with the requested topic. -/
def Manager.ValidateTopicBySender (t : Manager) (md5hex : String → String)
    (topic : String) (issuer : user.Issuer) (sub : String) : Option Bool :=
  match t.GetTopicTemplate topic with
  | none => some false
  | some topicTemplate =>
    let audience := issuerToAudienceStr issuer
    let fields0 : Fields :=
      [("audience", audience), ("company", t.company),
       ("peer", peerOfAudience audience)]
    match t.getHashID md5hex topicTemplate.type sub issuer with
    | none => some false
    | some hashID =>
      let fields1 := fields0 ++ [("hashId", hashID)]
      if topicTemplate.type == NodeCallEntry then
        match (goSplitSlash topic).get? 4 with
        | none => none
        | some node =>
          some (topicTemplate.Parse (fields1 ++ [("node", node)]) == topic)
      else
        some (topicTemplate.Parse fields1 == topic)

end topics

namespace authenticator

/-- A value stored in the parsed jwt claims map (`map[string]any`). Strings
and numbers cover the claim shapes the orchestrator touches. -/
inductive ClaimValue
  | str (s : String)
  | num (n : Int)
deriving DecidableEq

/-- The parsed claims map, as an association list; a missing key is Go's
`nil` entry. -/
abbrev Claims := List (String × ClaimValue)

/-- Go `claims[key]`: `none` is a `nil` (absent) entry. -/
def claimLookup (claims : Claims) (key : String) : Option ClaimValue :=
  (claims.find? (fun p => p.1 == key)).map (fun p => p.2)

/-- Go `fmt.Sprintf` of a claim value with the default verb: the string
itself, or the decimal rendering of a number. -/
def sprintfAny : ClaimValue → String
  | .str s => s
  | .num n => toString n

/-- Go type assertion `v.(string)` with discarded ok flag: the string when
the value is one, the string zero value otherwise. -/
def asGoString : ClaimValue → String
  | .str s => s
  | _ => ""

/-- The jwt claim-name configuration of the orchestrator. -/
structure JWTConfig where
  issName : String
  subName : String

/-- The closed taxonomy of typed deny reasons the orchestrator's `ACL`
returns, translated from the error values it constructs. -/
inductive ACLError
  | errInvalidAccessType
  | errIssNotFound
  | errSubNotFound
  | invalidTopic (topic : String)
  | topicNotAllowed (issuer sub : String) (accessType : acl.AccessType)
      (topic : String) (topicType : String)
deriving DecidableEq

/-- The orchestrator, with the fields its `ACL` decision reads. -/
structure AutoAuthenticator where
  allowedAccessTypes : List acl.AccessType
  topicManager : topics.Manager
  jwtConfig : JWTConfig

/-- `ValidateAccessType`: membership of the requested type in the
deployment-wide allow-list. -/
def AutoAuthenticator.ValidateAccessType (a : AutoAuthenticator)
    (accessType : acl.AccessType) : Bool :=
  a.allowedAccessTypes.any (fun allowedAccessType => allowedAccessType == accessType)

/-- `ACL`, from the point where the token's claims have been parsed (the
jwt parsing itself is the external library): allow-list check, issuer
claim, subject claim, topic lookup, access check — in that order, each
failure returning false with its typed reason. The topic lookup of the
source (`ParseTopic`, whose body is not in the snapshot) is modelled from
the spec as the registry lookup `GetTopicTemplate`. -/
def AutoAuthenticator.ACL (a : AutoAuthenticator) (accessType : acl.AccessType)
    (claims : Claims) (topic : String) : Bool × Option ACLError :=
  if !(a.ValidateAccessType accessType) then
    (false, some ACLError.errInvalidAccessType)
  else
    match claimLookup claims a.jwtConfig.issName with
    | none => (false, some ACLError.errIssNotFound)
    | some issVal =>
      let issuer := sprintfAny issVal
      match claimLookup claims a.jwtConfig.subName with
      | none => (false, some ACLError.errSubNotFound)
      | some subVal =>
        let sub := asGoString subVal
        match a.topicManager.GetTopicTemplate topic with
        | none => (false, some (ACLError.invalidTopic topic))
        | some topicTemplate =>
          if !(topicTemplate.HasAccess issuer accessType) then
            (false, some (ACLError.topicNotAllowed issuer sub accessType topic
              topicTemplate.type))
          else
            (true, none)

end authenticator

/-! Concrete fixtures used by witnesses and counterexamples. -/

/-- A pattern whose accesses map is empty. -/
def tAbsent : topics.Template :=
  { type := topics.DriverLocation
    template := fun _ => none
    regex := fun _ => true
    hashType := topics.HashType.HashID
    accesses := [] }

/-- A pattern declaring the publish-subscribe wildcard for "driver". -/
def tWildcard : topics.Template :=
  { type := topics.DriverLocation
    template := fun _ => none
    regex := fun _ => true
    hashType := topics.HashType.HashID
    accesses := [("driver", acl.PubSub)] }

/-- A pattern declaring publish-only access for "driver". -/
def tPubOnly : topics.Template :=
  { type := topics.DriverLocation
    template := fun _ => none
    regex := fun _ => true
    hashType := topics.HashType.HashID
    accesses := [("driver", acl.Pub)] }

/-- A first-declared pattern whose matcher accepts every string and whose
renderer always fails. -/
def tOver1 : topics.Template :=
  { type := topics.SuperappEvent
    template := fun _ => none
    regex := fun _ => true
    hashType := topics.HashType.HashID
    accesses := [] }

/-- A second-declared pattern whose matcher accepts every string and whose
renderer always produces "x". -/
def tOver2 : topics.Template :=
  { type := topics.BoxEvent
    template := fun _ => some "x"
    regex := fun _ => true
    hashType := topics.HashType.HashID
    accesses := [] }

/-- A registry declaring `tOver1` before `tOver2`, with an empty company. -/
def mgr8 : topics.Manager :=
  { hashIDSManager := { decodeHashID := fun _ _ => some 1 }
    company := ""
    topicTemplates := [tOver1, tOver2] }

/-- A registry holding only `tOver2`, with an empty company. -/
def mgr9 : topics.Manager :=
  { hashIDSManager := { decodeHashID := fun _ _ => some 1 }
    company := ""
    topicTemplates := [tOver2] }

/-- A registry holding only `tOver2`, with company "co". -/
def mgr10 : topics.Manager :=
  { hashIDSManager := { decodeHashID := fun _ _ => some 1 }
    company := "co"
    topicTemplates := [tOver2] }

/-- Helper: `List.find?` returns the element at the first index satisfying
the predicate, when every earlier element falsifies it. -/
theorem find?_eq_of_first_true {α : Type} (p : α → Bool) (ts : List α) :
    ∀ (i : Nat) (hi : i < ts.length),
      p (ts.get ⟨i, hi⟩) = true →
      (∀ k (hk : k < ts.length), k < i → p (ts.get ⟨k, hk⟩) = false) →
      ts.find? p = some (ts.get ⟨i, hi⟩) := by
  induction ts with
  | nil => intro i hi _ _; exact absurd hi (by simp)
  | cons a rest ih =>
    intro i hi hp hmin
    cases i with
    | zero =>
      exact List.find?_cons_of_pos rest hp
    | succ n =>
      have ha : p a = false := hmin 0 (by simp) (Nat.succ_pos n)
      rw [List.find?_cons_of_neg rest (by rw [ha]; exact Bool.false_ne_true)]
      have hn : n < rest.length := Nat.lt_of_succ_lt_succ (by simpa using hi)
      exact ih n hn hp
        (fun k hk hkn => hmin (k + 1) (by simpa using Nat.succ_lt_succ hk)
          (Nat.succ_lt_succ hkn))

/-- C1. The claim reads: for every audience with no entry in a pattern's
Accesses map, HasAccess returns false for every requested access type,
including when the requested type is the Unset sentinel. Refuted: the Go
map lookup at the absent audience yields the Unset (zero value) sentinel,
and the equality branch `access == accessType` then succeeds for a request
equal to that sentinel: `HasAccess` returns true, not false. -/
theorem c1_counterexample : tAbsent.HasAccess "driver" acl.Unset = true := rfl

/-- C1 (amended): for every audience with no entry in a pattern's Accesses
map, HasAccess returns false for every requested access type other than
the Unset sentinel; a request equal to the Unset sentinel itself is the
one exception and is granted, because the absent lookup yields that same
sentinel. -/
theorem c1_absence_denies (t : topics.Template) (audience : String)
    (req : acl.AccessType)
    (h : t.accesses.find? (fun p => p.1 == audience) = none) :
    t.HasAccess audience req = true ↔ req = acl.Unset := by
  unfold topics.Template.HasAccess topics.lookupAccess
  rw [h]
  show (acl.Unset == acl.PubSub || acl.Unset == req) = true ↔ req = acl.Unset
  have h1 : (acl.Unset == acl.PubSub) = false := rfl
  rw [h1, Bool.false_or, beq_iff_eq]
  exact eq_comm

/-- C1 witness: the amended theorem applied at a concrete pattern with an
empty accesses map and a concrete requested type. -/
theorem c1_absence_denies_witness :
    (tAbsent.accesses.find? (fun p => p.1 == "driver") = none)
    ∧ (tAbsent.HasAccess "driver" acl.Pub = true ↔ acl.Pub = acl.Unset) :=
  ⟨rfl, c1_absence_denies tAbsent "driver" acl.Pub rfl⟩

/-- C2: for every pattern, audience and requested access type, HasAccess
returns true iff the access stored for that audience (the Unset sentinel
when absent) equals the publish-subscribe wildcard or equals the requested
type exactly; in particular (PubSub declared, Pub requested) and (PubSub
declared, Sub requested) are granted and (Pub declared, Sub requested) is
denied. -/
theorem c2_hasAccess_iff :
    (∀ (t : topics.Template) (audience : String) (req : acl.AccessType),
        t.HasAccess audience req = true ↔
          (topics.lookupAccess t.accesses audience = acl.PubSub
            ∨ topics.lookupAccess t.accesses audience = req))
    ∧ tWildcard.HasAccess "driver" acl.Pub = true
    ∧ tWildcard.HasAccess "driver" acl.Sub = true
    ∧ tPubOnly.HasAccess "driver" acl.Sub = false := by
  refine ⟨?_, rfl, rfl, rfl⟩
  intro t audience req
  unfold topics.Template.HasAccess
  simp

/-- C9: on every field map on which template execution fails, the renderer
`Template.Parse` returns the empty string instead of surfacing the error. -/
theorem c9_render_failure_empty (t : topics.Template) (fields : topics.Fields)
    (h : t.template fields = none) : t.Parse fields = "" := by
  unfold topics.Template.Parse
  rw [h]

/-- C9 witness: a concrete template whose execution fails on the empty
field map renders to the empty string. -/
theorem c9_render_failure_empty_witness :
    (tOver1.template [] = none) ∧ topics.Template.Parse tOver1 [] = "" :=
  ⟨rfl, c9_render_failure_empty tOver1 [] rfl⟩

/-- C10: when the configured company is not a front piece of the input
topic, the trim is a no-op and both GetTopicType and GetTopicTemplate scan
the input string unchanged. -/
theorem c10_unstripped_classification (t : topics.Manager) (input : String)
    (h : t.company.isPrefixOf input = false) :
    topics.trimPre input t.company = input
    ∧ t.GetTopicType input = topics.findType t.topicTemplates input
    ∧ t.GetTopicTemplate input = topics.findTemplate t.topicTemplates input := by
  have htrim : topics.trimPre input t.company = input := by
    unfold topics.trimPre
    rw [h]
    simp
  refine ⟨htrim, ?_, ?_⟩
  · unfold topics.Manager.GetTopicType
    rw [htrim]
  · unfold topics.Manager.GetTopicTemplate
    rw [htrim]

/-- C10 witness: the theorem applied at a concrete registry whose company
"co" is not a front piece of the topic "x". -/
theorem c10_unstripped_classification_witness :
    (mgr10.company.isPrefixOf "x" = false)
    ∧ (topics.trimPre "x" mgr10.company = "x"
        ∧ mgr10.GetTopicType "x" = topics.findType mgr10.topicTemplates "x"
        ∧ mgr10.GetTopicTemplate "x"
            = topics.findTemplate mgr10.topicTemplates "x") :=
  ⟨rfl, c10_unstripped_classification mgr10 "x" rfl⟩

/-- A node-call-entry pattern whose matcher accepts every string. -/
def tNode : topics.Template :=
  { type := topics.NodeCallEntry
    template := fun _ => some "r"
    regex := fun _ => true
    hashType := topics.HashType.HashID
    accesses := [] }

/-- A registry holding only `tNode`, with an empty company. -/
def mgrNode : topics.Manager :=
  { hashIDSManager := { decodeHashID := fun _ _ => some 1 }
    company := ""
    topicTemplates := [tNode] }

/-- A stand-in for the abstract md5 digest: the identity function. -/
def md5id : String → String := fun s => s

/-- A driver-location pattern rendering the constant topic "d". -/
def tPlain : topics.Template :=
  { type := topics.DriverLocation
    template := fun _ => some "d"
    regex := fun _ => true
    hashType := topics.HashType.HashID
    accesses := [] }

/-- A registry holding only `tPlain`, with an empty company. -/
def mgrPlain : topics.Manager :=
  { hashIDSManager := { decodeHashID := fun _ _ => some 1 }
    company := ""
    topicTemplates := [tPlain] }

/-- A driver-location pattern that declares the MD5 hash kind. -/
def tMd5 : topics.Template :=
  { type := topics.DriverLocation
    template := fun _ => some "x"
    regex := fun _ => true
    hashType := topics.HashType.MD5
    accesses := [] }

/-- A registry holding only `tMd5`, whose codec decodes every token to 7. -/
def mgr6 : topics.Manager :=
  { hashIDSManager := { decodeHashID := fun _ _ => some 7 }
    company := ""
    topicTemplates := [tMd5] }

/-- A stand-in md5 digest returning the constant "H". -/
def md5H : String → String := fun _ => "H"

/-- The field set `ValidateTopicBySender` hands to the renderer: audience,
company, peer and hashId, plus — for the node-call-entry type — element 4
of the "/"-split of the raw topic. -/
def selfFields (t : topics.Manager) (topic : String) (issuer : user.Issuer)
    (hashID : String) (tmpl : topics.Template) : topics.Fields :=
  let audience := topics.issuerToAudienceStr issuer
  let fields0 : topics.Fields :=
    [("audience", audience), ("company", t.company),
     ("peer", topics.peerOfAudience audience)]
  let fields1 := fields0 ++ [("hashId", hashID)]
  if tmpl.type == topics.NodeCallEntry then
    fields1 ++ [("node", ((topics.goSplitSlash topic).get? 4).getD "")]
  else fields1

/-- Modelled from the spec: the identity-token selection rule the claim
states — the token chosen by the pattern's declared HashKind, either the
codec token or the secondary-hash output. To be compared with the source's
`Manager.getHashID`. -/
def hashTokenPerHashKind (t : topics.Manager) (md5hex : String → String)
    (tmpl : topics.Template) (sub : String) (issuer : user.Issuer) :
    Option String :=
  match tmpl.hashType with
  | topics.HashType.MD5 =>
    (t.hashIDSManager.decodeHashID sub (topics.issuerToAudience issuer)).map
      (fun id => md5hex (topics.EmqCabHashPre ++ "-" ++ toString id))
  | topics.HashType.HashID => some sub

/-- C5: when the template at position i matches the stripped input, every
earlier-declared template does not, and some later-declared template at
position j also matches, classification returns the earliest matching
template: GetTopicType yields its type and GetTopicTemplate yields the
template itself, deterministically on every call. -/
theorem c5_first_match_wins (t : topics.Manager) (input : String) (i j : Nat)
    (hi : i < t.topicTemplates.length)
    (hmatch : (t.topicTemplates.get ⟨i, hi⟩).regex
      (topics.trimPre input t.company) = true)
    (hmin : ∀ k (hk : k < t.topicTemplates.length), k < i →
      (t.topicTemplates.get ⟨k, hk⟩).regex
        (topics.trimPre input t.company) = false)
    (hj : j < t.topicTemplates.length) (hij : i < j)
    (hmatchj : (t.topicTemplates.get ⟨j, hj⟩).regex
      (topics.trimPre input t.company) = true) :
    t.GetTopicType input = (t.topicTemplates.get ⟨i, hi⟩).type
    ∧ t.GetTopicTemplate input = some (t.topicTemplates.get ⟨i, hi⟩) := by
  have hfind := find?_eq_of_first_true
    (fun each => each.regex (topics.trimPre input t.company))
    t.topicTemplates i hi hmatch hmin
  constructor
  · unfold topics.Manager.GetTopicType topics.findType
    rw [hfind]
  · unfold topics.Manager.GetTopicTemplate topics.findTemplate
    rw [hfind]

/-- C5 witness: both templates of `mgr8` accept "x"; classification returns
the first-declared one. -/
theorem c5_first_match_wins_witness :
    mgr8.GetTopicType "x" = topics.SuperappEvent
    ∧ mgr8.GetTopicTemplate "x" = some tOver1 :=
  c5_first_match_wins mgr8 "x" 0 1 (by decide) rfl
    (fun k hk hk0 => absurd hk0 (Nat.not_lt_zero k)) (by decide)
    (by decide) rfl

/-- C8. The claim reads: for every configured pattern P and every field set
F accepted by P's renderer, classifying the rendered string yields P's
Type. Refuted: the registry is first-match-wins and nothing in the code
prevents an earlier-declared pattern's matcher from also accepting the
rendered string — here the second pattern renders "x", both matchers accept
"x", and classification returns the first pattern's type. -/
theorem c8_counterexample :
    tOver2.template [] = some "x"
    ∧ topics.Template.Parse tOver2 [] = "x"
    ∧ mgr8.GetTopicType (topics.Template.Parse tOver2 []) = topics.SuperappEvent
    ∧ ¬ mgr8.GetTopicType (topics.Template.Parse tOver2 []) = tOver2.type := by
  refine ⟨rfl, rfl, rfl, ?_⟩
  decide

/-- C8 (amended): for every configured pattern P (at position i) and every
field set F on which P's renderer succeeds, if P's matcher accepts the
company-stripped rendered string and no earlier-declared pattern's matcher
accepts it, then classifying the rendered string yields P's Type. -/
theorem c8_round_trip_first_match (t : topics.Manager) (i : Nat)
    (hi : i < t.topicTemplates.length) (fields : topics.Fields) (r : String)
    (hrender : (t.topicTemplates.get ⟨i, hi⟩).template fields = some r)
    (hmatch : (t.topicTemplates.get ⟨i, hi⟩).regex
      (topics.trimPre r t.company) = true)
    (hmin : ∀ k (hk : k < t.topicTemplates.length), k < i →
      (t.topicTemplates.get ⟨k, hk⟩).regex
        (topics.trimPre r t.company) = false) :
    t.GetTopicType ((t.topicTemplates.get ⟨i, hi⟩).Parse fields)
      = (t.topicTemplates.get ⟨i, hi⟩).type := by
  have hparse : (t.topicTemplates.get ⟨i, hi⟩).Parse fields = r := by
    unfold topics.Template.Parse
    rw [hrender]
  rw [hparse]
  have hfind := find?_eq_of_first_true
    (fun each => each.regex (topics.trimPre r t.company))
    t.topicTemplates i hi hmatch hmin
  unfold topics.Manager.GetTopicType topics.findType
  rw [hfind]

/-- C8 witness: in the single-pattern registry `mgr9` the rendered string
"x" classifies back to the pattern's own type. -/
theorem c8_round_trip_first_match_witness :
    mgr9.GetTopicType (topics.Template.Parse tOver2 []) = tOver2.type :=
  c8_round_trip_first_match mgr9 0 (by decide) [] "x" rfl rfl
    (fun k hk hk0 => absurd hk0 (Nat.not_lt_zero k))

/-- C3. The claim reads: a topic that classifies as node-call-entry but has
fewer "/"-segments than the positional extraction requires makes
ValidateTopicBySender return false rather than crash. Refuted: the topic
"x" classifies as node-call-entry (the matcher accepts it) and splits into
one segment; the source indexes element 4 of the split unconditionally,
which in Go is an out-of-range panic (modelled `none`), not a false
return. -/
theorem c3_counterexample :
    mgrNode.ValidateTopicBySender md5id "x" user.Driver "s" = none
    ∧ ¬ mgrNode.ValidateTopicBySender md5id "x" user.Driver "s" = some false := by
  refine ⟨rfl, ?_⟩
  decide

/-- C3 (amended): for every topic that classifies as the node-call-entry
pattern and splits on "/" into fewer than five segments, the self-topic
validation crashes on the positional index (a Go panic, modelled `none`)
instead of returning false. -/
theorem c3_node_entry_short_topic_crashes (t : topics.Manager)
    (md5hex : String → String) (topic : String) (issuer : user.Issuer)
    (sub : String) (tmpl : topics.Template)
    (hfind : t.GetTopicTemplate topic = some tmpl)
    (htype : tmpl.type = topics.NodeCallEntry)
    (hlen : (topics.goSplitSlash topic).length < 5) :
    t.ValidateTopicBySender md5hex topic issuer sub = none := by
  have hhash : t.getHashID md5hex topics.NodeCallEntry sub issuer = some sub := by
    unfold topics.Manager.getHashID
    rfl
  have hget : (topics.goSplitSlash topic).get? 4 = none := by
    rw [List.get?_eq_none]
    omega
  unfold topics.Manager.ValidateTopicBySender
  simp only [hfind, htype, hhash, beq_self_eq_true, if_true, hget]

/-- C3 witness: the amended theorem applied at the concrete registry
`mgrNode` and the two-segment topic "a/b". -/
theorem c3_node_entry_short_topic_crashes_witness :
    (mgrNode.GetTopicTemplate "a/b" = some tNode)
    ∧ (tNode.type = topics.NodeCallEntry)
    ∧ ((topics.goSplitSlash "a/b").length < 5)
    ∧ mgrNode.ValidateTopicBySender md5id "a/b" user.Driver "s" = none :=
  ⟨rfl, rfl, by decide,
    c3_node_entry_short_topic_crashes mgrNode md5id "a/b" user.Driver "s"
      tNode rfl rfl (by decide)⟩

/-- C4. The claim reads: ValidateTopicBySender returns false when no
pattern matches or the token derivation fails, and otherwise returns the
byte-for-byte comparison of the rendered string with the topic. Refuted:
for the matching node-call-entry topic "p/q" the pattern matches and the
derivation succeeds, yet the validator neither returns false nor returns
the comparison — it crashes on the positional index (modelled `none`). -/
theorem c4_counterexample :
    mgrNode.ValidateTopicBySender md5id "p/q" user.Driver "s" = none
    ∧ ¬ mgrNode.ValidateTopicBySender md5id "p/q" user.Driver "s" = some false
    ∧ ¬ mgrNode.ValidateTopicBySender md5id "p/q" user.Driver "s" = some true := by
  refine ⟨rfl, ?_, ?_⟩ <;> decide

/-- C4 (amended): ValidateTopicBySender returns false when no pattern
matches the topic or when the identity-token derivation fails; when the
matched pattern is node-call-entry and the topic splits into fewer than
five segments it crashes (Go panic, modelled `none`); in every remaining
case it returns exactly the case-sensitive equality of the rendered string
with the requested topic. -/
theorem c4_validate_by_sender_cases (t : topics.Manager)
    (md5hex : String → String) (topic : String) (issuer : user.Issuer)
    (sub : String) :
    (t.GetTopicTemplate topic = none →
      t.ValidateTopicBySender md5hex topic issuer sub = some false)
    ∧ (∀ tmpl, t.GetTopicTemplate topic = some tmpl →
        t.getHashID md5hex tmpl.type sub issuer = none →
        t.ValidateTopicBySender md5hex topic issuer sub = some false)
    ∧ (∀ tmpl hashID, t.GetTopicTemplate topic = some tmpl →
        t.getHashID md5hex tmpl.type sub issuer = some hashID →
        (tmpl.type = topics.NodeCallEntry → 5 ≤ (topics.goSplitSlash topic).length) →
        t.ValidateTopicBySender md5hex topic issuer sub
          = some (tmpl.Parse (selfFields t topic issuer hashID tmpl) == topic)) := by
  refine ⟨?_, ?_, ?_⟩
  · intro h
    unfold topics.Manager.ValidateTopicBySender
    simp only [h]
  · intro tmpl hfind hhash
    unfold topics.Manager.ValidateTopicBySender
    simp only [hfind, hhash]
  · intro tmpl hashID hfind hhash hseg
    unfold topics.Manager.ValidateTopicBySender selfFields
    simp only [hfind, hhash]
    by_cases hb : (tmpl.type == topics.NodeCallEntry) = true
    · have htype : tmpl.type = topics.NodeCallEntry := by
        exact beq_iff_eq.mp hb
      have h5 : 4 < (topics.goSplitSlash topic).length := hseg htype
      have hget : (topics.goSplitSlash topic).get? 4
          = some ((topics.goSplitSlash topic).get ⟨4, h5⟩) := List.get?_eq_get h5
      simp only [hb, if_true, hget, Option.getD_some]
    · simp only [hb, if_false, Bool.false_eq_true]

/-- C4 witness: the third case applied at the concrete registry `mgrPlain`
and the topic "d", where the render equals the topic. -/
theorem c4_validate_by_sender_cases_witness :
    mgrPlain.ValidateTopicBySender md5id "d" user.Driver "s" = some true := by
  have h := (c4_validate_by_sender_cases mgrPlain md5id "d" user.Driver "s").2.2
    tPlain "s" rfl rfl (by decide)
  exact h.trans rfl

/-- C6. The claim reads: the identity token of the self-topic field set is
selected by the pattern's declared HashKind. Refuted: the source selects by
the pattern's Type string alone (`topicType == CabEvent`) and never reads
the HashType field; for a driver-location pattern that declares the MD5
kind, the code yields the raw subject token while the HashKind-selected
token is the secondary hash. -/
theorem c6_counterexample :
    mgr6.getHashID md5H tMd5.type "s" user.Driver = some "s"
    ∧ hashTokenPerHashKind mgr6 md5H tMd5 "s" user.Driver = some "H"
    ∧ ¬ mgr6.getHashID md5H tMd5.type "s" user.Driver
        = hashTokenPerHashKind mgr6 md5H tMd5 "s" user.Driver := by
  refine ⟨rfl, rfl, ?_⟩
  decide

/-- C6 (amended): the identity token is selected by the matched pattern's
Type, not by its declared HashKind: exactly for the cab-event type the
token is the secondary hash — the abstract md5 digest of the fixed
pre-string joined by "-" with the decimal codec-decoded id, the decode
failure propagating as a failure — and for every other type the token is
the subject claim unchanged. The secondary hash is a fixed function of the
numeric id, so the same id always yields the same token. -/
theorem c6_token_selected_by_type (t : topics.Manager)
    (md5hex : String → String) (topicType sub : String)
    (issuer : user.Issuer) :
    (topicType = topics.CabEvent →
      t.getHashID md5hex topicType sub issuer
        = (t.hashIDSManager.decodeHashID sub
            (topics.issuerToAudience issuer)).map
            (fun id => md5hex (topics.EmqCabHashPre ++ "-" ++ toString id)))
    ∧ (¬ topicType = topics.CabEvent →
      t.getHashID md5hex topicType sub issuer = some sub) := by
  constructor
  · intro h
    unfold topics.Manager.getHashID
    rw [h]
    simp only [beq_self_eq_true, if_true]
    cases hdec : t.hashIDSManager.decodeHashID sub
      (topics.issuerToAudience issuer) <;> simp [hdec]
  · intro h
    unfold topics.Manager.getHashID
    have hb : (topicType == topics.CabEvent) = false := by
      exact beq_eq_false_iff_ne.mpr h
    simp only [hb, if_false, Bool.false_eq_true]

/-- C6 amended-theorem witness: a non-cab-event type keeps the subject
token unchanged. -/
theorem c6_token_selected_by_type_witness :
    mgr6.getHashID md5H topics.NodeCallEntry "s" user.Driver = some "s" :=
  (c6_token_selected_by_type mgr6 md5H topics.NodeCallEntry "s"
    user.Driver).2 (by decide)

/-- A pattern granting the wildcard to the issuer string "driver". -/
def tAcl : topics.Template :=
  { type := topics.DriverLocation
    template := fun _ => some "x"
    regex := fun _ => true
    hashType := topics.HashType.HashID
    accesses := [("driver", acl.PubSub)] }

/-- A registry holding only `tAcl`, with an empty company. -/
def mgrAcl : topics.Manager :=
  { hashIDSManager := { decodeHashID := fun _ _ => some 1 }
    company := ""
    topicTemplates := [tAcl] }

/-- An orchestrator allowing only publish, over `mgrAcl`, with claim names
"iss" and "sub". -/
def aAuth : authenticator.AutoAuthenticator :=
  { allowedAccessTypes := [acl.Pub]
    topicManager := mgrAcl
    jwtConfig := { issName := "iss", subName := "sub" } }

/-- A claims map carrying both the issuer and the subject. -/
def claimsOk : authenticator.Claims :=
  [("iss", authenticator.ClaimValue.str "driver"),
   ("sub", authenticator.ClaimValue.str "s")]

/-- C7: the orchestrator's ACL decision checks its conditions in a fixed
order and returns false with the corresponding typed reason for the first
that fails — requested type not in the allow-list, issuer claim missing,
subject claim missing, topic not recognized, then access not granted, the
last reason carrying issuer, subject, requested type, topic and pattern
type — and returns true (with no reason) only when every check passes. -/
theorem c7_acl_order (a : authenticator.AutoAuthenticator)
    (accessType : acl.AccessType) (claims : authenticator.Claims)
    (topic : String) :
    (a.ValidateAccessType accessType = false →
      a.ACL accessType claims topic
        = (false, some authenticator.ACLError.errInvalidAccessType))
    ∧ (a.ValidateAccessType accessType = true →
        authenticator.claimLookup claims a.jwtConfig.issName = none →
        a.ACL accessType claims topic
          = (false, some authenticator.ACLError.errIssNotFound))
    ∧ (∀ issVal,
        a.ValidateAccessType accessType = true →
        authenticator.claimLookup claims a.jwtConfig.issName = some issVal →
        authenticator.claimLookup claims a.jwtConfig.subName = none →
        a.ACL accessType claims topic
          = (false, some authenticator.ACLError.errSubNotFound))
    ∧ (∀ issVal subVal,
        a.ValidateAccessType accessType = true →
        authenticator.claimLookup claims a.jwtConfig.issName = some issVal →
        authenticator.claimLookup claims a.jwtConfig.subName = some subVal →
        a.topicManager.GetTopicTemplate topic = none →
        a.ACL accessType claims topic
          = (false, some (authenticator.ACLError.invalidTopic topic)))
    ∧ (∀ issVal subVal tmpl,
        a.ValidateAccessType accessType = true →
        authenticator.claimLookup claims a.jwtConfig.issName = some issVal →
        authenticator.claimLookup claims a.jwtConfig.subName = some subVal →
        a.topicManager.GetTopicTemplate topic = some tmpl →
        tmpl.HasAccess (authenticator.sprintfAny issVal) accessType = false →
        a.ACL accessType claims topic
          = (false, some (authenticator.ACLError.topicNotAllowed
              (authenticator.sprintfAny issVal)
              (authenticator.asGoString subVal) accessType topic tmpl.type)))
    ∧ (∀ issVal subVal tmpl,
        a.ValidateAccessType accessType = true →
        authenticator.claimLookup claims a.jwtConfig.issName = some issVal →
        authenticator.claimLookup claims a.jwtConfig.subName = some subVal →
        a.topicManager.GetTopicTemplate topic = some tmpl →
        tmpl.HasAccess (authenticator.sprintfAny issVal) accessType = true →
        a.ACL accessType claims topic = (true, none)) := by
  refine ⟨?_, ?_, ?_, ?_, ?_, ?_⟩
  · intro hv
    unfold authenticator.AutoAuthenticator.ACL
    simp only [hv, Bool.not_false, if_true]
  · intro hv hiss
    unfold authenticator.AutoAuthenticator.ACL
    simp only [hv, Bool.not_true, Bool.false_eq_true, if_false, hiss]
  · intro issVal hv hiss hsub
    unfold authenticator.AutoAuthenticator.ACL
    simp only [hv, Bool.not_true, Bool.false_eq_true, if_false, hiss, hsub]
  · intro issVal subVal hv hiss hsub htop
    unfold authenticator.AutoAuthenticator.ACL
    simp only [hv, Bool.not_true, Bool.false_eq_true, if_false, hiss, hsub,
      htop]
  · intro issVal subVal tmpl hv hiss hsub htop hacc
    unfold authenticator.AutoAuthenticator.ACL
    simp only [hv, Bool.not_true, Bool.false_eq_true, if_false, hiss, hsub,
      htop, hacc, Bool.not_false, if_true]
  · intro issVal subVal tmpl hv hiss hsub htop hacc
    unfold authenticator.AutoAuthenticator.ACL
    simp only [hv, Bool.not_true, Bool.false_eq_true, if_false, hiss, hsub,
      htop, hacc]

/-- C7 witness: with publish allowed, both claims present, the topic
matched and the wildcard granted, the concrete orchestrator allows. -/
theorem c7_acl_order_witness : aAuth.ACL acl.Pub claimsOk "x" = (true, none) :=
  (c7_acl_order aAuth acl.Pub claimsOk "x").2.2.2.2.2
    (authenticator.ClaimValue.str "driver")
    (authenticator.ClaimValue.str "s") tAcl rfl rfl rfl rfl rfl

end Soteria
